import Mathlib

/-!
# Verification of the KingstonConnect AU Web Portal core

Shallow embedding of `src/auwebprotal/auwebportal/views.py`: the session
store, the credential validators `check_regno` / `check_dob`, the
three-phase workflow endpoint `fetch_data` (`POST /api/fetch-data`), the
expiry sweep `cleanup_old_sessions`, the session-creating part of
`init_session`, and the legacy `get` endpoint (`GET /get`).

Modelling conventions:
* Strings are modelled over their character lists; Python string builtins
  (`strip`, `isdigit`, `split`, `replace`, `lower`, `int(...)`) are embedded
  as structurally recursive functions on `List Char`.  The model covers
  ASCII text; Python's Unicode digit categories, Unicode whitespace beyond
  the six ASCII whitespace characters, and `int`'s underscore digit
  grouping are outside the model.
* The in-memory dict `captcha_sessions` is an association list with Python
  dict semantics (insert overwrites in place, `del` removes the key).
* Network I/O and the BeautifulSoup/Scrapper parses of upstream HTML are
  externals: the portal's reply to the login POST is a parameter
  (`PortalHtml`: the raw-body redirect-marker test plus the parsed table
  list), and the four `Scrapper.get_*_details` calls (whose module is not
  part of the sources) are an oracle `ScrapKind → Except Unit ScrapResult`,
  `Except.error` standing for a raised exception.
* `fetch_data` additionally returns a trace of the externally visible
  actions it attempted (the login POST, the profile-table parse, each
  sub-record extraction), determined by the branch structure of the code.
* Timestamps are seconds as `Nat`; `(now - created_at).total_seconds() > 600`
  becomes `now - created_at > 600` (for `created_at > now` Python's negative
  difference and `Nat` truncation both fail the test).
-/

namespace AUPortal

/-! ## Python string primitives -/

/-- The six characters Python `str.strip()` removes (ASCII fragment). -/
def isPySpace (c : Char) : Bool :=
  c = ' ' || c = '\t' || c = '\n' || c = '\x0d' || c = '\x0b' || c = '\x0c'

/-- Python `s.strip()` on ASCII text. -/
def pyStrip (s : String) : String :=
  String.mk (((s.data.dropWhile isPySpace).reverse.dropWhile isPySpace).reverse)

/-- Python `s.isdigit()` on ASCII text: non-empty and all digits. -/
def pyIsDigit (s : String) : Bool :=
  !s.data.isEmpty && s.data.all Char.isDigit

/-- Helper for `pySplit`: walk the characters, cutting at the separator. -/
def pySplitAux (sep : Char) : List Char → List Char → List String
  | [], acc => [String.mk acc.reverse]
  | c :: rest, acc =>
    if c = sep then String.mk acc.reverse :: pySplitAux sep rest []
    else pySplitAux sep rest (c :: acc)

/-- Python `s.split(sep)` for a single-character separator. -/
def pySplit (s : String) (sep : Char) : List String :=
  pySplitAux sep s.data []

/-- Numeric value of a digit run. -/
def digitsVal (cs : List Char) : Nat :=
  cs.foldl (fun a c => 10 * a + (c.toNat - 48)) 0

/-- Python `int(s)` on ASCII text: surrounding whitespace, an optional
sign, then a non-empty digit run; `none` models a raised `ValueError`. -/
def pyInt (s : String) : Option Int :=
  match (pyStrip s).data with
  | [] => none
  | c :: rest =>
    if c = '+' then
      if !rest.isEmpty && rest.all Char.isDigit then some (digitsVal rest) else none
    else if c = '-' then
      if !rest.isEmpty && rest.all Char.isDigit then some (-(digitsVal rest : Int)) else none
    else
      if (c :: rest).all Char.isDigit then some (digitsVal (c :: rest)) else none

/-- Python `s.replace(' ', '_')`. -/
def pyReplaceSpace (s : String) : String :=
  String.mk (s.data.map (fun c => if c = ' ' then '_' else c))

/-- Python `s.lower()` on ASCII text. -/
def pyLower (s : String) : String :=
  String.mk (s.data.map Char.toLower)

/-! ## The Gregorian calendar check performed by `datetime.date` -/

/-- Python's leap-year rule (`calendar.isleap`, used by `datetime.date`). -/
def isLeap (y : Int) : Bool :=
  y % 4 = 0 && (y % 100 ≠ 0 || y % 400 = 0)

/-- Days in a month as `datetime.date` counts them. -/
def daysInMonth (y m : Int) : Int :=
  if m = 2 then (if isLeap y then 29 else 28)
  else if m = 4 || m = 6 || m = 9 || m = 11 then 30
  else 31

/-- `datetime.date(y, m, d)` succeeds iff this holds (MINYEAR = 1,
MAXYEAR = 9999). -/
def dateValid (y m d : Int) : Bool :=
  1 ≤ y && y ≤ 9999 && 1 ≤ m && m ≤ 12 && 1 ≤ d && d ≤ daysInMonth y m

/-! ## The credential validators (views.py lines 38-53) -/

/-- `check_dob` (views.py 38-46): split on `'-'`, build
`datetime.date(int(parts[2]), int(parts[1]), int(parts[0]))`; any raised
exception (missing index, bad int, invalid date) yields `False`. -/
def check_dob (dob : String) : Bool :=
  if dob = "" then false
  else
    let parts := pySplit dob '-'
    match parts.get? 2, parts.get? 1, parts.get? 0 with
    | some ys, some ms, some ds =>
      match pyInt ys, pyInt ms, pyInt ds with
      | some y, some m, some d => dateValid y m d
      | _, _, _ => false
    | _, _, _ => false

/-- `check_regno` (views.py 49-53): non-empty, `isdigit`, length > 8. -/
def check_regno (register_no : String) : Bool :=
  if register_no ≠ "" && pyIsDigit register_no && register_no.length > 8 then
    true
  else
    false

/-! ## Data model -/

/-- One entry of the `captcha_sessions` dict (views.py 101-106). -/
structure SessionContext where
  cookies : List (String × String)
  hidden_data : List (String × String)
  captcha_audio_url : Option String
  created_at : Nat
deriving DecidableEq, Repr

/-- The `captcha_sessions` dict (views.py 14): sessionId → context. -/
abbrev Store := List (String × SessionContext)

/-- Python dict assignment `d[k] = v`: overwrite in place, else append. -/
def pyDictInsert {α : Type} (d : List (String × α)) (k : String) (v : α) :
    List (String × α) :=
  if d.any (fun p => p.1 = k) then
    d.map (fun p => if p.1 = k then (k, v) else p)
  else
    d ++ [(k, v)]

/-- Python `del captcha_sessions[sid]` (keys are unique in a dict). -/
def storeErase (store : Store) (sid : String) : Store :=
  store.filter (fun p => p.1 ≠ sid)

/-- JSON body of a `POST /api/fetch-data` request; a field is `none` when
absent from the JSON object. -/
structure ReqBody where
  session_id : Option String
  register_no : Option String
  dob : Option String
  captcha_solution : Option String
deriving DecidableEq, Repr

/-- Python truthiness of `data.get(k)` for an optional string field, as
used by `all([session_id, register_no, dob, captcha_solution])`. -/
def truthy : Option String → Bool
  | none => false
  | some s => s ≠ ""

/-- One `<tr>` of an upstream table: the `.text` of its `<td>` cells. -/
structure Row where
  cells : List String
deriving DecidableEq, Repr

/-- One `<table>` of the upstream response. -/
structure Table where
  rows : List Row
deriving DecidableEq, Repr

/-- The portal's reply to the login POST, as `fetch_data` interrogates it:
the raw-body test `content.find(b"window.location='index.php'") != -1`
and the `BeautifulSoup(...).findAll('table')` parse of the same body. -/
structure PortalHtml where
  hasRedirectMarker : Bool
  tables : List Table
deriving DecidableEq, Repr

/-- The four `Scrapper.get_*_details` calls (views.py 259-278). -/
inductive ScrapKind
  | examSchedule
  | assessment
  | examResult
  | internalMark
deriving DecidableEq, Repr

/-- Value returned by one scrapper extraction: `none` is Python `None`,
`some rows` a list of records. -/
abbrev ScrapResult := Option (List (List (String × String)))

/-- `Except.ok` is a normal return, `Except.error` a raised exception that
the corresponding bare `except:` catches. -/
abbrev ScrapOracle := ScrapKind → Except Unit ScrapResult

/-- Result of `except:` fallback: the value on a normal return, the
per-kind default when the extraction raised. -/
def exceptD (e : Except Unit ScrapResult) (fallback : ScrapResult) : ScrapResult :=
  match e with
  | Except.ok v => v
  | Except.error _ => fallback

/-- The assembled `result` bundle (views.py 283-289). -/
structure FetchResult where
  profile : List (String × String)
  exam_schedule : ScrapResult
  assessment : ScrapResult
  exam_result : ScrapResult
  internals : ScrapResult
deriving DecidableEq, Repr

/-- Outcome of `POST /api/fetch-data`, one constructor per return site of
`fetch_data` reachable in the model (network exceptions excluded). -/
inductive FetchResponse
  | noData
  | missingFields
  | sessionExpired
  | invalidRegno
  | invalidDob
  | loginFailed
  | parseError
  | success (r : FetchResult)
deriving DecidableEq, Repr

/-- Externally visible steps `fetch_data` attempts, in program order. -/
inductive Action
  | portalSubmit
  | parseProfile
  | scrap (k : ScrapKind)
deriving DecidableEq, Repr

/-! ## The markup extractor (views.py 250-257) -/

/-- `tds[0].text.strip().replace(' ', '_').lower()`. -/
def normalizeKey (s : String) : String :=
  pyLower (pyReplaceSpace (pyStrip s))

/-- One iteration of the profile loop: rows with fewer than two cells are
skipped, others assign `profile_details[key] = value`. -/
def profileStep (d : List (String × String)) (row : Row) : List (String × String) :=
  if 2 ≤ row.cells.length then
    pyDictInsert d (normalizeKey (row.cells.headD ""))
      (pyStrip ((row.cells.get? 1).getD ""))
  else
    d

/-- The profile dict built from the first table's rows. -/
def extractProfileRows (rows : List Row) : List (String × String) :=
  rows.foldl profileStep []

/-! ## The submit endpoint (views.py 169-298) -/

/-- `fetch_data` (`POST /api/fetch-data`).  Inputs beyond the store and the
request body: the portal's reply to the login POST and the scrapper
oracle, both externals of the embedded code.  Output: the store after the
call, the response, and the trace of attempted actions.  The
`requests`-level exception handlers (timeout, connection error) are
outside the model: `portal` is a reply that arrived. -/
def fetch_data (store : Store) (req : Option ReqBody) (portal : PortalHtml)
    (oracle : ScrapOracle) : Store × FetchResponse × List Action :=
  match req with
  | none => (store, FetchResponse.noData, [])
  | some body =>
    if truthy body.session_id && truthy body.register_no &&
        truthy body.dob && truthy body.captcha_solution then
      let sid := body.session_id.getD ""
      let register_no := body.register_no.getD ""
      let dob := body.dob.getD ""
      match List.lookup sid store with
      | none => (store, FetchResponse.sessionExpired, [])
      | some _ctx =>
        if !check_regno register_no then
          (store, FetchResponse.invalidRegno, [])
        else if !check_dob dob then
          (store, FetchResponse.invalidDob, [])
        else if portal.hasRedirectMarker then
          (store, FetchResponse.loginFailed, [Action.portalSubmit])
        else
          match portal.tables with
          | [] =>
            (store, FetchResponse.parseError,
             [Action.portalSubmit, Action.parseProfile])
          | t :: _ =>
            (storeErase store sid,
             FetchResponse.success
               ⟨extractProfileRows t.rows,
                exceptD (oracle ScrapKind.examSchedule) (some []),
                exceptD (oracle ScrapKind.assessment) (some []),
                exceptD (oracle ScrapKind.examResult) none,
                exceptD (oracle ScrapKind.internalMark) (some [])⟩,
             [Action.portalSubmit, Action.parseProfile,
              Action.scrap ScrapKind.examSchedule,
              Action.scrap ScrapKind.assessment,
              Action.scrap ScrapKind.examResult,
              Action.scrap ScrapKind.internalMark])
    else
      (store, FetchResponse.missingFields, [])

/-! ## Session expiry (views.py 301-309) and creation (views.py 98-109) -/

/-- `cleanup_old_sessions`: drop every entry strictly older than 600
seconds.  The two-pass collect-then-delete of the source equals a filter
on a dict's unique keys. -/
def cleanup_old_sessions (store : Store) (now : Nat) : Store :=
  store.filter (fun p => !(now - p.2.created_at > 600))

/-- The store mutation of `init_session`: record the fresh context under
the fresh id (views.py 101-106), then sweep (views.py 109). -/
def init_session (store : Store) (now : Nat) (sid : String)
    (cookies hidden : List (String × String)) (audio : Option String) : Store :=
  cleanup_old_sessions
    (pyDictInsert store sid ⟨cookies, hidden, audio, now⟩) now

/-! ## The legacy endpoint (views.py 313-334) -/

/-- Outcome of `GET /get`. -/
inductive GetResponse
  | badParams
  | invalidBoth
  | invalidRegno
  | invalidDob
  | bundle (rows : ScrapResult)
deriving DecidableEq, Repr

/-- `get` (`GET /get`): query parameters are `none` when absent; the
`Scrapper(...).get_json()` call is an external, passed as `scrapped`. -/
def get (register_no dob : Option String) (scrapped : ScrapResult) : GetResponse :=
  match register_no, dob with
  | some r, some d =>
    if !check_regno r && !check_dob d then GetResponse.invalidBoth
    else if !check_regno r then GetResponse.invalidRegno
    else if !check_dob d then GetResponse.invalidDob
    else GetResponse.bundle scrapped
  | _, _ => GetResponse.badParams

/-! ## Concrete fixtures used by witnesses and counterexamples -/

/-- A session context captured at time 0. -/
def ctx0 : SessionContext := ⟨[("PHPSESSID", "abc")], [("h", "v")], none, 0⟩

/-- A store holding exactly the session `"sid1"`. -/
def store0 : Store := [("sid1", ctx0)]

/-- A well-formed request body for `"sid1"`. -/
def body0 : ReqBody := ⟨some "sid1", some "123456789", some "29-02-2020", some "x"⟩

/-- The same body with an empty captcha solution. -/
def bodyEmptyCap : ReqBody := ⟨some "sid1", some "123456789", some "29-02-2020", some ""⟩

/-- The two-column profile table of the spec's fixture. -/
def profileFixture : Table := ⟨[⟨["Name", "John"]⟩, ⟨["Register No", "123456789"]⟩]⟩

/-- A portal reply without the redirect marker and with the fixture table. -/
def okPortal : PortalHtml := ⟨false, [profileFixture]⟩

/-- A portal reply whose body contains `window.location='index.php'`. -/
def markerPortal : PortalHtml := ⟨true, [profileFixture]⟩

/-- A scrapper oracle where every extraction returns a record. -/
def okOracle : ScrapOracle := fun _ => Except.ok (some [[("subject", "CS101")]])

/-- A scrapper oracle where only the assessment extraction raises. -/
def failAsmtOracle : ScrapOracle := fun k =>
  match k with
  | ScrapKind.assessment => Except.error ()
  | _ => Except.ok (some [[("subject", "CS101")]])

/-! ## Derived views of the profile loop, and the spec's reading of
`check_dob` -/

/-- The normalized key of a row's first cell. -/
def rowKey (r : Row) : String := normalizeKey (r.cells.headD "")

/-- The trimmed value of a row's second cell. -/
def rowVal (r : Row) : String := pyStrip ((r.cells.get? 1).getD "")

/-- A row contributes to the profile dict iff it has at least two cells. -/
def rowQualifies (r : Row) : Bool := 2 ≤ r.cells.length

/-- The claim's reading of date validation: splitting on `'-'` yields
exactly day, month and year components forming a valid calendar date. -/
def check_dob_claim (s : String) : Prop :=
  ∃ ds ms ys d m y, pySplit s '-' = [ds, ms, ys] ∧
    pyInt ds = some d ∧ pyInt ms = some m ∧ pyInt ys = some y ∧
    dateValid y m d = true

/-! ## Helper lemmas -/

/-- `check_regno` only accepts non-empty strings. -/
lemma check_regno_ne_empty {r : String} (h : check_regno r = true) : r ≠ "" := by
  intro he
  subst he
  simp [check_regno] at h

/-- `check_dob` only accepts non-empty strings. -/
lemma check_dob_ne_empty {d : String} (h : check_dob d = true) : d ≠ "" := by
  intro he
  subst he
  simp [check_dob] at h

/-- After `del captcha_sessions[sid]` the key `sid` resolves to nothing. -/
lemma lookup_storeErase (store : Store) (sid : String) :
    List.lookup sid (storeErase store sid) = none := by
  induction store with
  | nil => rfl
  | cons p t ih =>
    by_cases h : p.1 = sid
    · simpa [storeErase, List.filter, h] using ih
    · have hb : (sid == p.1) = false := beq_eq_false_iff_ne.mpr (Ne.symm h)
      simpa [storeErase, List.filter, h, List.lookup, hb] using ih

/-- A `lookup` hit is a member of the association list. -/
lemma mem_of_lookup_eq_some {α : Type} {l : List (String × α)} {k : String} {v : α}
    (h : List.lookup k l = some v) : (k, v) ∈ l := by
  induction l with
  | nil => simp [List.lookup] at h
  | cons p t ih =>
    by_cases hk : k = p.1
    · have hb : (k == p.1) = true := beq_iff_eq.mpr hk
      simp only [List.lookup, hb, Option.some.injEq] at h
      obtain ⟨k1, v1⟩ := p
      simp only at hk
      exact List.mem_cons.mpr (Or.inl (by simp [hk, ← h]))
    · have hb : (k == p.1) = false := beq_eq_false_iff_ne.mpr hk
      simp only [List.lookup, hb] at h
      exact List.mem_cons.mpr (Or.inr (ih h))

/-- A request with a falsy field short-circuits to `missingFields`. -/
lemma fetch_data_missing (store : Store) (portal : PortalHtml) (oracle : ScrapOracle)
    (body : ReqBody)
    (h : (truthy body.session_id && truthy body.register_no &&
          truthy body.dob && truthy body.captcha_solution) = false) :
    fetch_data store (some body) portal oracle =
      (store, FetchResponse.missingFields, []) := by
  simp only [fetch_data, h, Bool.false_eq_true, if_false]

/-- An absent sessionId ends the call at the session check. -/
lemma fetch_data_no_session (store : Store) (portal : PortalHtml) (oracle : ScrapOracle)
    (sid r d cap : String)
    (hsid : sid ≠ "") (hr : r ≠ "") (hd : d ≠ "") (hcap : cap ≠ "")
    (hlook : List.lookup sid store = none) :
    fetch_data store (some ⟨some sid, some r, some d, some cap⟩) portal oracle =
      (store, FetchResponse.sessionExpired, []) := by
  simp [fetch_data, truthy, hsid, hr, hd, hcap, hlook]

/-- With validation passing and the redirect marker present, `fetch_data`
returns the 401 right after the login POST. -/
lemma fetch_data_marker_eq (store : Store) (portal : PortalHtml) (oracle : ScrapOracle)
    (sid r d cap : String) (ctx : SessionContext)
    (hsid : sid ≠ "") (hcap : cap ≠ "")
    (hlook : List.lookup sid store = some ctx)
    (hr : check_regno r = true) (hd : check_dob d = true)
    (hm : portal.hasRedirectMarker = true) :
    fetch_data store (some ⟨some sid, some r, some d, some cap⟩) portal oracle =
      (store, FetchResponse.loginFailed, [Action.portalSubmit]) := by
  simp [fetch_data, truthy, hsid, hcap, check_regno_ne_empty hr, check_dob_ne_empty hd,
        hlook, hr, hd, hm]

/-- With validation passing, no marker and at least one table, `fetch_data`
deletes the session and assembles the bundle. -/
lemma fetch_data_success_eq (store : Store) (portal : PortalHtml) (oracle : ScrapOracle)
    (sid r d cap : String) (ctx : SessionContext) (t : Table) (rest : List Table)
    (hsid : sid ≠ "") (hcap : cap ≠ "")
    (hlook : List.lookup sid store = some ctx)
    (hr : check_regno r = true) (hd : check_dob d = true)
    (hm : portal.hasRedirectMarker = false) (ht : portal.tables = t :: rest) :
    fetch_data store (some ⟨some sid, some r, some d, some cap⟩) portal oracle =
      (storeErase store sid,
       FetchResponse.success
         ⟨extractProfileRows t.rows,
          exceptD (oracle ScrapKind.examSchedule) (some []),
          exceptD (oracle ScrapKind.assessment) (some []),
          exceptD (oracle ScrapKind.examResult) none,
          exceptD (oracle ScrapKind.internalMark) (some [])⟩,
       [Action.portalSubmit, Action.parseProfile,
        Action.scrap ScrapKind.examSchedule, Action.scrap ScrapKind.assessment,
        Action.scrap ScrapKind.examResult, Action.scrap ScrapKind.internalMark]) := by
  simp [fetch_data, truthy, hsid, hcap, check_regno_ne_empty hr, check_dob_ne_empty hd,
        hlook, hr, hd, hm, ht]

/-- With validation passing, no marker and zero tables, `fetch_data` stops
at the profile parse and keeps the session. -/
lemma fetch_data_parse_error_eq (store : Store) (portal : PortalHtml) (oracle : ScrapOracle)
    (sid r d cap : String) (ctx : SessionContext)
    (hsid : sid ≠ "") (hcap : cap ≠ "")
    (hlook : List.lookup sid store = some ctx)
    (hr : check_regno r = true) (hd : check_dob d = true)
    (hm : portal.hasRedirectMarker = false) (ht : portal.tables = []) :
    fetch_data store (some ⟨some sid, some r, some d, some cap⟩) portal oracle =
      (store, FetchResponse.parseError, [Action.portalSubmit, Action.parseProfile]) := by
  simp [fetch_data, truthy, hsid, hcap, check_regno_ne_empty hr, check_dob_ne_empty hd,
        hlook, hr, hd, hm, ht]

/-- A failing register number ends the call at its validation. -/
lemma fetch_data_invalid_regno_eq (store : Store) (portal : PortalHtml) (oracle : ScrapOracle)
    (sid r d cap : String) (ctx : SessionContext)
    (hsid : sid ≠ "") (hre : r ≠ "") (hde : d ≠ "") (hcap : cap ≠ "")
    (hlook : List.lookup sid store = some ctx) (hr : check_regno r = false) :
    fetch_data store (some ⟨some sid, some r, some d, some cap⟩) portal oracle =
      (store, FetchResponse.invalidRegno, []) := by
  simp [fetch_data, truthy, hsid, hre, hde, hcap, hlook, hr]

/-- A failing date of birth ends the call at its validation. -/
lemma fetch_data_invalid_dob_eq (store : Store) (portal : PortalHtml) (oracle : ScrapOracle)
    (sid r d cap : String) (ctx : SessionContext)
    (hsid : sid ≠ "") (hde : d ≠ "") (hcap : cap ≠ "")
    (hlook : List.lookup sid store = some ctx)
    (hr : check_regno r = true) (hd : check_dob d = false) :
    fetch_data store (some ⟨some sid, some r, some d, some cap⟩) portal oracle =
      (store, FetchResponse.invalidDob, []) := by
  simp [fetch_data, truthy, hsid, check_regno_ne_empty hr, hde, hcap, hlook, hr, hd]

/-- The legacy endpoint hands the pair to the scrapper iff both
validators accept. -/
lemma get_bundle_iff (r d : String) (scrapped : ScrapResult) :
    (∃ rows, get (some r) (some d) scrapped = GetResponse.bundle rows) ↔
      (check_regno r = true ∧ check_dob d = true) := by
  unfold get
  rcases hr : check_regno r <;> rcases hd : check_dob d <;> simp [hr, hd]

/-- The submit endpoint attempts the login POST iff both validators
accept, given a stored session and truthy fields. -/
lemma portalSubmit_mem_iff (store : Store) (portal : PortalHtml) (oracle : ScrapOracle)
    (sid r d cap : String) (ctx : SessionContext)
    (hsid : sid ≠ "") (hcap : cap ≠ "")
    (hlook : List.lookup sid store = some ctx) :
    (Action.portalSubmit ∈
      (fetch_data store (some ⟨some sid, some r, some d, some cap⟩) portal oracle).2.2) ↔
      (check_regno r = true ∧ check_dob d = true) := by
  by_cases hre : r = ""
  · rw [fetch_data_missing store portal oracle _ (by simp [truthy, hre])]
    have hfr : check_regno r = false := by rw [hre]; decide
    simp [hfr]
  · by_cases hde : d = ""
    · rw [fetch_data_missing store portal oracle _ (by simp [truthy, hde])]
      have hfd : check_dob d = false := by rw [hde]; decide
      simp [hfd]
    · by_cases hr : check_regno r = true
      · by_cases hd : check_dob d = true
        · simp only [hr, hd, and_self, iff_true]
          rcases hm : portal.hasRedirectMarker with _ | _
          · rcases ht : portal.tables with _ | ⟨t, rest⟩
            · rw [fetch_data_parse_error_eq store portal oracle sid r d cap ctx
                    hsid hcap hlook hr hd hm ht]
              simp
            · rw [fetch_data_success_eq store portal oracle sid r d cap ctx t rest
                    hsid hcap hlook hr hd hm ht]
              simp
          · rw [fetch_data_marker_eq store portal oracle sid r d cap ctx
                  hsid hcap hlook hr hd hm]
            simp
        · have hfd : check_dob d = false := by simpa using hd
          rw [fetch_data_invalid_dob_eq store portal oracle sid r d cap ctx
                hsid hde hcap hlook hr hfd]
          simp [hfd]
      · have hfr : check_regno r = false := by simpa using hr
        rw [fetch_data_invalid_regno_eq store portal oracle sid r d cap ctx
              hsid hre hde hcap hlook hfr]
        simp [hfr]

/-- Overwriting a key that is absent appends the pair. -/
lemma pyDictInsert_fresh {α : Type} (d : List (String × α)) (k : String) (v : α)
    (h : d.any (fun p => p.1 = k) = false) :
    pyDictInsert d k v = d ++ [(k, v)] := by
  unfold pyDictInsert
  rw [if_neg (by simp [h])]

/-- The profile fold appends one pair per qualifying row while the
normalized keys stay fresh. -/
lemma foldl_profileStep_append :
    ∀ (rows : List Row) (acc : List (String × String)),
      (∀ r ∈ rows, rowQualifies r = true →
        acc.any (fun p => p.1 = rowKey r) = false) →
      ((rows.filter rowQualifies).map rowKey).Nodup →
      rows.foldl profileStep acc =
        acc ++ (rows.filter rowQualifies).map (fun r => (rowKey r, rowVal r)) := by
  intro rows
  induction rows with
  | nil => intro acc _ _; simp
  | cons r t ih =>
    intro acc hacc hnd
    by_cases hc : rowQualifies r = true
    · have hins : profileStep acc r = acc ++ [(rowKey r, rowVal r)] := by
        unfold profileStep
        rw [if_pos (by simpa [rowQualifies] using hc)]
        exact pyDictInsert_fresh _ _ _ (hacc r (List.mem_cons_self r t) hc)
      have hnd' : ((t.filter rowQualifies).map rowKey).Nodup ∧
          rowKey r ∉ (t.filter rowQualifies).map rowKey := by
        rw [List.filter_cons_of_pos hc] at hnd
        simpa [List.nodup_cons, and_comm] using hnd
      have hacc' : ∀ r' ∈ t, rowQualifies r' = true →
          (acc ++ [(rowKey r, rowVal r)]).any (fun p => p.1 = rowKey r') = false := by
        intro r' hr' hq'
        rw [List.any_append]
        have h1 := hacc r' (List.mem_cons_of_mem r hr') hq'
        have h2 : rowKey r ≠ rowKey r' := by
          intro he
          exact hnd'.2 (he ▸ List.mem_map.mpr ⟨r', List.mem_filter.mpr ⟨hr', hq'⟩, rfl⟩)
        simp [h1, h2]
      calc (r :: t).foldl profileStep acc
          = t.foldl profileStep (profileStep acc r) := by rw [List.foldl_cons]
        _ = t.foldl profileStep (acc ++ [(rowKey r, rowVal r)]) := by rw [hins]
        _ = (acc ++ [(rowKey r, rowVal r)]) ++
              (t.filter rowQualifies).map (fun x => (rowKey x, rowVal x)) :=
            ih _ hacc' hnd'.1
        _ = acc ++ ((r :: t).filter rowQualifies).map (fun x => (rowKey x, rowVal x)) := by
            rw [List.filter_cons_of_pos hc]
            simp
    · have hstep : profileStep acc r = acc := by
        unfold profileStep
        rw [if_neg (by simpa [rowQualifies] using hc)]
      rw [List.foldl_cons, hstep, ih _ (fun r' h' => hacc r' (List.mem_cons_of_mem r h')) ?_,
          List.filter_cons_of_neg hc]
      rw [List.filter_cons_of_neg hc] at hnd
      exact hnd

/-! ## Claim theorems -/

/-- C1 (counterexample): a first submit that fails terminally with
`AuthenticationFailed` does not make the second submit yield
`SessionExpiredOrInvalid`: the session was not removed, so the second
call runs the whole flow again and fails with `loginFailed`, not
`sessionExpired`. -/
theorem submit_not_single_use_after_terminal_failure :
    (fetch_data store0 (some body0) markerPortal okOracle).2.1 =
      FetchResponse.loginFailed ∧
    (fetch_data (fetch_data store0 (some body0) markerPortal okOracle).1 (some body0)
        markerPortal okOracle).2.1 = FetchResponse.loginFailed ∧
    (fetch_data (fetch_data store0 (some body0) markerPortal okOracle).1 (some body0)
        markerPortal okOracle).2.1 ≠ FetchResponse.sessionExpired := by
  refine ⟨?_, ?_, ?_⟩ <;> decide

/-- C1 (amended): after a first submit call with a stored sessionId
completes successfully, the session is deleted, so any subsequent submit
call with the same sessionId — whatever the portal then answers — yields
`SessionExpiredOrInvalid` and leaves the store unchanged. -/
theorem submit_single_use_after_success (store : Store) (portal portal2 : PortalHtml)
    (oracle oracle2 : ScrapOracle) (sid r d cap : String) (ctx : SessionContext)
    (t : Table) (rest : List Table)
    (hsid : sid ≠ "") (hcap : cap ≠ "")
    (hlook : List.lookup sid store = some ctx)
    (hr : check_regno r = true) (hd : check_dob d = true)
    (hm : portal.hasRedirectMarker = false) (ht : portal.tables = t :: rest) :
    (∃ res, (fetch_data store (some ⟨some sid, some r, some d, some cap⟩) portal oracle).2.1 =
      FetchResponse.success res) ∧
    fetch_data (fetch_data store (some ⟨some sid, some r, some d, some cap⟩) portal oracle).1
        (some ⟨some sid, some r, some d, some cap⟩) portal2 oracle2 =
      ((fetch_data store (some ⟨some sid, some r, some d, some cap⟩) portal oracle).1,
       FetchResponse.sessionExpired, []) := by
  rw [fetch_data_success_eq store portal oracle sid r d cap ctx t rest
        hsid hcap hlook hr hd hm ht]
  refine ⟨⟨_, rfl⟩, ?_⟩
  exact fetch_data_no_session _ portal2 oracle2 sid r d cap hsid
    (check_regno_ne_empty hr) (check_dob_ne_empty hd) hcap (lookup_storeErase store sid)

/-- C1 (witness): the amended theorem applied to the concrete fixture. -/
theorem submit_single_use_after_success_witness :
    (∃ res, (fetch_data store0 (some body0) okPortal okOracle).2.1 =
      FetchResponse.success res) ∧
    fetch_data (fetch_data store0 (some body0) okPortal okOracle).1 (some body0)
        okPortal okOracle =
      ((fetch_data store0 (some body0) okPortal okOracle).1,
       FetchResponse.sessionExpired, []) :=
  submit_single_use_after_success store0 okPortal okPortal okOracle okOracle
    "sid1" "123456789" "29-02-2020" "x" ctx0 profileFixture []
    (by decide) (by decide) (by decide) (by decide) (by decide) (by decide) (by decide)

/-- C2 (counterexample): `fetch_data` takes no clock and performs no age
check, so a session created at time 0 and never submitted is still
accepted by a submit call at time 700 (≥ 600 seconds later) — the call
returns a success bundle, not `SessionExpiredOrInvalid`; only the sweep
run by `init_session` removes stale entries. -/
theorem stale_session_accepted_by_submit :
    600 < 700 - ctx0.created_at ∧
    List.lookup "sid1" store0 = some ctx0 ∧
    (fetch_data store0 (some body0) okPortal okOracle).2.1 ≠
      FetchResponse.sessionExpired := by
  refine ⟨?_, ?_, ?_⟩ <;> decide

/-- C2 (amended): whenever the expiry sweep runs — it is invoked on every
`init_session` call — no surviving session context is older than 600
seconds; the submit path itself performs no age check. -/
theorem init_session_sweeps_expired (store : Store) (now : Nat) (sid sid2 : String)
    (cookies hidden : List (String × String)) (audio : Option String)
    (ctx : SessionContext)
    (h : List.lookup sid2 (init_session store now sid cookies hidden audio) = some ctx) :
    now - ctx.created_at ≤ 600 := by
  have hmem := mem_of_lookup_eq_some h
  unfold init_session cleanup_old_sessions at hmem
  have hpred := (List.mem_filter.mp hmem).2
  simpa using hpred

/-- C2 (witness): a sweep at time 700 keeps the fresh session (age 0) and
drops the session created at time 0 (age 700). -/
theorem init_session_sweeps_expired_witness :
    List.lookup "s1" (init_session [("old", ⟨[], [], none, 0⟩)] 700 "s1" [] [] none) =
      some ⟨[], [], none, 700⟩ ∧
    List.lookup "old" (init_session [("old", ⟨[], [], none, 0⟩)] 700 "s1" [] [] none) =
      none ∧
    700 - (⟨[], [], none, 700⟩ : SessionContext).created_at ≤ 600 :=
  ⟨by decide, by decide,
   init_session_sweeps_expired [("old", ⟨[], [], none, 0⟩)] 700 "s1" "s1" [] [] none
     ⟨[], [], none, 700⟩ (by decide)⟩

/-- C3: when submit fails with `AuthenticationFailed` (the redirect
marker is in the portal reply), the response is the 401 and the session
store still maps the sessionId to the same context as before. -/
theorem auth_failure_preserves_session (store : Store) (portal : PortalHtml)
    (oracle : ScrapOracle) (sid r d cap : String) (ctx : SessionContext)
    (hsid : sid ≠ "") (hcap : cap ≠ "")
    (hlook : List.lookup sid store = some ctx)
    (hr : check_regno r = true) (hd : check_dob d = true)
    (hm : portal.hasRedirectMarker = true) :
    (fetch_data store (some ⟨some sid, some r, some d, some cap⟩) portal oracle).2.1 =
      FetchResponse.loginFailed ∧
    (fetch_data store (some ⟨some sid, some r, some d, some cap⟩) portal oracle).1 = store ∧
    List.lookup sid
        (fetch_data store (some ⟨some sid, some r, some d, some cap⟩) portal oracle).1 =
      some ctx := by
  rw [fetch_data_marker_eq store portal oracle sid r d cap ctx hsid hcap hlook hr hd hm]
  exact ⟨rfl, rfl, hlook⟩

/-- C3 (witness): the theorem applied to the concrete fixture. -/
theorem auth_failure_preserves_session_witness :
    (fetch_data store0 (some body0) markerPortal okOracle).2.1 =
      FetchResponse.loginFailed ∧
    (fetch_data store0 (some body0) markerPortal okOracle).1 = store0 ∧
    List.lookup "sid1" (fetch_data store0 (some body0) markerPortal okOracle).1 =
      some ctx0 :=
  auth_failure_preserves_session store0 markerPortal okOracle
    "sid1" "123456789" "29-02-2020" "x" ctx0
    (by decide) (by decide) (by decide) (by decide) (by decide) (by decide)

/-- C4: a portal reply containing the redirect-to-index marker makes
submit return `AuthenticationFailed` (401) with no markup extraction
attempted: the trace holds the login POST only — no profile-table parse
and no sub-record extraction of any kind. -/
theorem redirect_marker_no_extraction (store : Store) (portal : PortalHtml)
    (oracle : ScrapOracle) (sid r d cap : String) (ctx : SessionContext)
    (hsid : sid ≠ "") (hcap : cap ≠ "")
    (hlook : List.lookup sid store = some ctx)
    (hr : check_regno r = true) (hd : check_dob d = true)
    (hm : portal.hasRedirectMarker = true) :
    (fetch_data store (some ⟨some sid, some r, some d, some cap⟩) portal oracle).2.1 =
      FetchResponse.loginFailed ∧
    Action.parseProfile ∉
      (fetch_data store (some ⟨some sid, some r, some d, some cap⟩) portal oracle).2.2 ∧
    ∀ k : ScrapKind, Action.scrap k ∉
      (fetch_data store (some ⟨some sid, some r, some d, some cap⟩) portal oracle).2.2 := by
  rw [fetch_data_marker_eq store portal oracle sid r d cap ctx hsid hcap hlook hr hd hm]
  exact ⟨rfl, by simp, fun k => by simp⟩

/-- C4 (witness): the theorem applied to the concrete fixture. -/
theorem redirect_marker_no_extraction_witness :
    (fetch_data store0 (some body0) markerPortal okOracle).2.1 =
      FetchResponse.loginFailed ∧
    Action.parseProfile ∉ (fetch_data store0 (some body0) markerPortal okOracle).2.2 ∧
    ∀ k : ScrapKind,
      Action.scrap k ∉ (fetch_data store0 (some body0) markerPortal okOracle).2.2 :=
  redirect_marker_no_extraction store0 markerPortal okOracle
    "sid1" "123456789" "29-02-2020" "x" ctx0
    (by decide) (by decide) (by decide) (by decide) (by decide) (by decide)

/-- C5: once login detection passes and a profile table exists, the
result bundle is fully determined componentwise: the profile from the
first table, and each sub-record kind from its own extraction alone,
degrading to its own fallback (`[]`, or `None` for the exam result) when
that extraction raises — so one kind's failure cannot affect the profile
or the other kinds. -/
theorem subrecord_extractions_independent (store : Store) (portal : PortalHtml)
    (oracle : ScrapOracle) (sid r d cap : String) (ctx : SessionContext)
    (t : Table) (rest : List Table)
    (hsid : sid ≠ "") (hcap : cap ≠ "")
    (hlook : List.lookup sid store = some ctx)
    (hr : check_regno r = true) (hd : check_dob d = true)
    (hm : portal.hasRedirectMarker = false) (ht : portal.tables = t :: rest) :
    fetch_data store (some ⟨some sid, some r, some d, some cap⟩) portal oracle =
      (storeErase store sid,
       FetchResponse.success
         ⟨extractProfileRows t.rows,
          exceptD (oracle ScrapKind.examSchedule) (some []),
          exceptD (oracle ScrapKind.assessment) (some []),
          exceptD (oracle ScrapKind.examResult) none,
          exceptD (oracle ScrapKind.internalMark) (some [])⟩,
       [Action.portalSubmit, Action.parseProfile,
        Action.scrap ScrapKind.examSchedule, Action.scrap ScrapKind.assessment,
        Action.scrap ScrapKind.examResult, Action.scrap ScrapKind.internalMark]) :=
  fetch_data_success_eq store portal oracle sid r d cap ctx t rest
    hsid hcap hlook hr hd hm ht

/-- C5 (witness): with an oracle whose assessment extraction raises, the
bundle still carries the profile and the other three kinds, and the
assessment degrades to the empty list. -/
theorem subrecord_extractions_independent_witness :
    fetch_data store0 (some body0) okPortal failAsmtOracle =
      (storeErase store0 "sid1",
       FetchResponse.success
         ⟨extractProfileRows profileFixture.rows,
          exceptD (failAsmtOracle ScrapKind.examSchedule) (some []),
          exceptD (failAsmtOracle ScrapKind.assessment) (some []),
          exceptD (failAsmtOracle ScrapKind.examResult) none,
          exceptD (failAsmtOracle ScrapKind.internalMark) (some [])⟩,
       [Action.portalSubmit, Action.parseProfile,
        Action.scrap ScrapKind.examSchedule, Action.scrap ScrapKind.assessment,
        Action.scrap ScrapKind.examResult, Action.scrap ScrapKind.internalMark]) ∧
    exceptD (failAsmtOracle ScrapKind.assessment) (some []) = some [] ∧
    exceptD (failAsmtOracle ScrapKind.examSchedule) (some []) =
      some [[("subject", "CS101")]] :=
  ⟨subrecord_extractions_independent store0 okPortal failAsmtOracle
     "sid1" "123456789" "29-02-2020" "x" ctx0 profileFixture []
     (by decide) (by decide) (by decide) (by decide) (by decide) (by decide) (by decide),
   by decide, by decide⟩

/-- C6: `check_regno` accepts exactly the non-empty all-digit strings of
length strictly greater than 8; in particular the 7-digit string is
rejected and the 9-digit string accepted. -/
theorem check_regno_spec :
    (∀ s : String, check_regno s = true ↔
      (s ≠ "" ∧ s.data.all Char.isDigit = true ∧ 8 < s.length)) ∧
    check_regno "1234567" = false ∧ check_regno "123456789" = true := by
  refine ⟨fun s => ?_, by decide, by decide⟩
  obtain ⟨l⟩ := s
  simp [check_regno, pyIsDigit, String.length]
  constructor
  · rintro ⟨⟨h1, _, h3⟩, h4⟩
    exact ⟨h1, h3, h4⟩
  · rintro ⟨h1, h3, h4⟩
    refine ⟨⟨h1, ?_, h3⟩, h4⟩
    intro he
    exact h1 (by rw [he])

/-- C7 (counterexample): `check_dob` accepts `"1-2-2020-1"`, which does
not split into exactly day, month and year components — the code ignores
everything after the third component, so the claim's iff fails. -/
theorem check_dob_ignores_extra_components :
    check_dob "1-2-2020-1" = true ∧ ¬ check_dob_claim "1-2-2020-1" := by
  refine ⟨by decide, ?_⟩
  rintro ⟨ds, ms, ys, d, m, y, hsplit, -⟩
  have h4 : (pySplit "1-2-2020-1" '-').length = 4 := by decide
  rw [hsplit] at h4
  simp at h4

/-- C7 (amended): `check_dob` accepts a string iff splitting on `'-'`
yields at least three components whose first three parse as integers
forming a valid calendar date in day-month-year order, components beyond
the third being ignored; in particular `"31-02-2020"` is rejected and
`"29-02-2020"` (leap year) accepted. -/
theorem check_dob_amended_spec :
    (∀ s : String, check_dob s = true ↔
      ∃ ds ms ys rest d m y, pySplit s '-' = ds :: ms :: ys :: rest ∧
        pyInt ds = some d ∧ pyInt ms = some m ∧ pyInt ys = some y ∧
        dateValid y m d = true) ∧
    check_dob "31-02-2020" = false ∧ check_dob "29-02-2020" = true := by
  refine ⟨fun s => ?_, by decide, by decide⟩
  by_cases hs : s = ""
  · subst hs
    simp only [check_dob, if_pos rfl]
    constructor
    · intro h
      exact absurd h (by decide)
    · rintro ⟨ds, ms, ys, rest, d, m, y, hsplit, -⟩
      have h1 : (pySplit "" '-').length = 1 := by decide
      rw [hsplit] at h1
      simp at h1
  · simp only [check_dob, if_neg hs]
    rcases hp : pySplit s '-' with _ | ⟨a, _ | ⟨b, _ | ⟨c, rest⟩⟩⟩
    · simp [hp]
    · simp [hp]
    · simp [hp]
    · simp only [hp, List.get?]
      constructor
      · intro h
        rcases hy : pyInt c with _ | y <;> rcases hm : pyInt b with _ | m <;>
          rcases hd : pyInt a with _ | d <;> simp only [hy, hm, hd] at h
        all_goals first
        | cases h
        | exact ⟨a, b, c, rest, d, m, y, rfl, hd, hm, hy, h⟩
      · rintro ⟨ds, ms, ys, rest', d, m, y, heq, hd, hm, hy, hdv⟩
        obtain ⟨rfl, rfl, rfl, rfl⟩ : ds = a ∧ ms = b ∧ ys = c ∧ rest' = rest := by
          simpa using heq.symm
        rw [hy, hm, hd]
        exact hdv

/-- C8: on any first table whose qualifying rows (≥ 2 cells) have
pairwise-distinct normalized keys, the profile maps each such row's
normalized first-cell text to its trimmed second-cell text, in row
order; in particular the fixture table with rows `Name | John` and
`Register No | 123456789` yields exactly
`{name: John, register_no: 123456789}`. -/
theorem extractProfile_spec :
    (∀ rows : List Row,
      ((rows.filter rowQualifies).map rowKey).Nodup →
      extractProfileRows rows =
        (rows.filter rowQualifies).map (fun r => (rowKey r, rowVal r))) ∧
    extractProfileRows profileFixture.rows =
      [("name", "John"), ("register_no", "123456789")] := by
  refine ⟨fun rows hnd => ?_, by decide⟩
  simpa using foldl_profileStep_append rows [] (by simp) hnd

/-- C8 (witness): the general mapping applied to the fixture table. -/
theorem extractProfile_spec_witness :
    ((profileFixture.rows.filter rowQualifies).map rowKey).Nodup ∧
    extractProfileRows profileFixture.rows =
      (profileFixture.rows.filter rowQualifies).map (fun r => (rowKey r, rowVal r)) :=
  ⟨by decide, extractProfile_spec.1 profileFixture.rows (by decide)⟩

/-- C9: given any stored session and truthy sessionId/captcha fields, the
legacy `/get` endpoint hands a (register_no, dob) pair to the scrapper
iff the session-based submit path carries the same pair past validation
to the login POST — both are decided by the shared `check_regno` and
`check_dob`. -/
theorem legacy_get_validation_equiv (store : Store) (portal : PortalHtml)
    (oracle : ScrapOracle) (scrapped : ScrapResult) (sid r d cap : String)
    (ctx : SessionContext)
    (hsid : sid ≠ "") (hcap : cap ≠ "")
    (hlook : List.lookup sid store = some ctx) :
    (∃ rows, get (some r) (some d) scrapped = GetResponse.bundle rows) ↔
      Action.portalSubmit ∈
        (fetch_data store (some ⟨some sid, some r, some d, some cap⟩) portal oracle).2.2 :=
  (get_bundle_iff r d scrapped).trans
    (portalSubmit_mem_iff store portal oracle sid r d cap ctx hsid hcap hlook).symm

/-- C9 (witness): the equivalence applied to the concrete fixture, in the
accepting direction. -/
theorem legacy_get_validation_equiv_witness :
    ∃ rows, get (some "123456789") (some "29-02-2020") (some []) =
      GetResponse.bundle rows :=
  (legacy_get_validation_equiv store0 okPortal okOracle (some [])
    "sid1" "123456789" "29-02-2020" "x" ctx0
    (by decide) (by decide) (by decide)).mpr (by decide)

/-- C10: a request body with any of the four fields absent or empty
yields `missingFields` with an empty trace and the store untouched —
before the session lookup (the result holds for every store) and before
either credential validation (it holds for every field value). -/
theorem missing_fields_short_circuit (store : Store) (portal : PortalHtml)
    (oracle : ScrapOracle) (body : ReqBody)
    (h : body.session_id = none ∨ body.session_id = some "" ∨
         body.register_no = none ∨ body.register_no = some "" ∨
         body.dob = none ∨ body.dob = some "" ∨
         body.captcha_solution = none ∨ body.captcha_solution = some "") :
    fetch_data store (some body) portal oracle =
      (store, FetchResponse.missingFields, []) := by
  apply fetch_data_missing
  rcases h with h | h | h | h | h | h | h | h <;> simp [truthy, h]

/-- C10 (witness): an empty captcha solution is treated as missing even
though the sessionId is valid and present in the store, which is left
unchanged. -/
theorem missing_fields_short_circuit_witness :
    bodyEmptyCap.captcha_solution = some "" ∧
    List.lookup "sid1" store0 = some ctx0 ∧
    fetch_data store0 (some bodyEmptyCap) okPortal okOracle =
      (store0, FetchResponse.missingFields, []) :=
  ⟨by decide, by decide,
   missing_fields_short_circuit store0 okPortal okOracle bodyEmptyCap (by decide)⟩

end AUPortal
